import Mathlib

/-!
Shallow embedding of the sound-playback code of pybricks-micropython
(bricks/ev3dev/pb_type_ev3dev_speaker.c and extmod/modbattery.c).

Conventions of the embedding:
* C strings are `List Char`; `getc` reads a byte of the NUL-terminated
  buffer, yielding the terminator `'\x00'` past the end (the C parser
  never dereferences past the terminator).
* C `int` is `Int`; C integer division truncates toward zero, which is
  `Int.tdiv` here.  Where the C code can divide by zero (undefined
  behavior in C) the embedding keeps the division reachable so the fact
  is provable; see `playNoteParse` and `noteDuration`.
* The C `double` frequency is carried exactly, in hundredths of Hz
  (`freq100`): each decimal literal of the source has two decimals
  (e.g. `16.35` becomes `1635`), and the only arithmetic the source
  applies to it is multiplication by a power of two (`freq *= 2 <<
  octave`), which is exact both here and in binary floating point, so
  every equality and the final truncating cast `(int)freq` agree with
  the C `double` values.
* Side effects on the tone device are recorded as a `ToneEvent` trace:
  `setFreq f` is one `write` of an `input_event` with value `f`
  (frequency 0 is silence), `delay ms` is one `mp_hal_delay_ms` call.
-/

deriving instance DecidableEq for Except

/-- One observable action of the speaker code: a tone-device write
(`set_beep_frequency`) or a timed suspension (`mp_hal_delay_ms`). -/
inductive ToneEvent where
  | setFreq (f : Int)
  | delay (ms : Int)
deriving DecidableEq, Repr

/-- Read byte `i` of a NUL-terminated C string: past the end the parser
sees the terminator. -/
def getc (s : List Char) (i : Nat) : Char := s.getD i (Char.ofNat 0)

/-- The data `ev3dev_Speaker_play_note` extracts from one note token
before acting on the device: the frequency in hundredths of Hz, the
fractional size (4 = quarter note), and the `.` / `_` decorations. -/
structure NoteData where
  freq100 : Int
  fraction : Int
  dotted : Bool
  tied : Bool
deriving DecidableEq, Repr

/-- The parsing phase of `ev3dev_Speaker_play_note`, transcribed from the
switch on the note letter, the accidental, the octave, the `'/'`, the one
or two fraction digits and the optional `'.'` and `'_'`.  Errors are the
`mp_raise_ValueError` messages of the source.  Note the fraction guard is
the source's `fraction < 0 || fraction > 9`, which admits the digit 0. -/
def playNoteParse (note : List Char) : Except String NoteData :=
  match (match getc note 0, getc note 1 with
    | 'C', 'b' => Except.error "'Cb' is not allowed"
    | 'C', '#' => Except.ok ((1732, 2))
    | 'C', _   => Except.ok ((1635, 1))
    | 'D', 'b' => Except.ok ((1732, 2))
    | 'D', '#' => Except.ok ((1945, 2))
    | 'D', _   => Except.ok ((1835, 1))
    | 'E', 'b' => Except.ok ((1945, 2))
    | 'E', '#' => Except.error "'E#' is not allowed"
    | 'E', _   => Except.ok ((2060, 1))
    | 'F', 'b' => Except.error "'Fb' is not allowed"
    | 'F', '#' => Except.ok ((2312, 2))
    | 'F', _   => Except.ok ((2183, 1))
    | 'G', 'b' => Except.ok ((2312, 2))
    | 'G', '#' => Except.ok ((2596, 2))
    | 'G', _   => Except.ok ((2450, 1))
    | 'A', 'b' => Except.ok ((2596, 2))
    | 'A', '#' => Except.ok ((2914, 2))
    | 'A', _   => Except.ok ((2750, 1))
    | 'B', 'b' => Except.ok ((2914, 2))
    | 'B', '#' => Except.error "'B#' is not allowed"
    | 'B', _   => Except.ok ((3087, 1))
    | 'R', _   => Except.ok ((0, 1))
    | _, _     => Except.error "Missing note name A-G or R"
    : Except String (Int × Nat)) with
  | .error e => .error e
  | .ok (freq0, pos0) =>
    match (if freq0 ≠ 0 then
        let octave : Int := ((getc note pos0).toNat : Int) - 48
        if octave < 2 ∨ octave > 8 then
          Except.error "Missing octave number 2-8"
        else
          -- C: freq *= 2 << octave
          Except.ok (freq0 * ((2 <<< octave.toNat : Nat) : Int), pos0 + 1)
      else Except.ok (freq0, pos0) : Except String (Int × Nat)) with
    | .error e => .error e
    | .ok (freq, pos1) =>
      if getc note pos1 ≠ '/' then .error "Missing '/'"
      else
        let pos2 := pos1 + 1
        let fraction1 : Int := ((getc note pos2).toNat : Int) - 48
        if fraction1 < 0 ∨ fraction1 > 9 then
          .error "Missing fractional value 1, 2, 4, 8, etc."
        else
          let pos3 := pos2 + 1
          let fraction2 : Int := ((getc note pos3).toNat : Int) - 48
          let fp : Int × Nat :=
            if fraction2 < 0 ∨ fraction2 > 9 then (fraction1, pos3)
            else (fraction1 * 10 + fraction2, pos3 + 1)
          let dp : Bool × Nat :=
            if getc note fp.2 = '.' then (true, fp.2 + 1) else (false, fp.2)
          let tied : Bool := getc note dp.2 = '_'
          .ok { freq100 := freq, fraction := fp.1, dotted := dp.1, tied := tied }

/-- `play_notes`: length of the whole note in ms, `4 * 60 * 1000 / tempo`
with C integer division. -/
def wholeNoteDuration (tempo : Int) : Int := Int.tdiv (4 * 60 * 1000) tempo

/-- The duration arithmetic of `play_note`: `duration /= fraction`, then
the dotted note is extended to `3 * duration / 2`.  `Int.tdiv` matches
C's truncating division for a nonzero divisor; when `fraction = 0` the C
division is undefined behavior (see the C3 analysis). -/
def noteDuration (whole : Int) (nd : NoteData) : Int :=
  let d := Int.tdiv whole nd.fraction
  if nd.dotted then Int.tdiv (3 * d) 2 else d

/-- The device trace of `play_note` on one token: set the frequency (the
C cast `(int)freq`, here `freq100 / 100` truncated), then either hold
`7/8` of the duration, silence, and rest `1/8` (release), or hold the
full duration when the note is tied with `'_'`. -/
def playNoteTrace (note : List Char) (whole : Int) : Except String (List ToneEvent) :=
  match playNoteParse note with
  | .error e => .error e
  | .ok nd =>
    let d := noteDuration whole nd
    let f : Int := Int.tdiv nd.freq100 100
    if nd.tied then
      .ok [ToneEvent.setFreq f, ToneEvent.delay d]
    else
      .ok [ToneEvent.setFreq f, ToneEvent.delay (Int.tdiv (7 * d) 8),
           ToneEvent.setFreq 0, ToneEvent.delay (Int.tdiv d 8)]

example : playNoteTrace ("C4/4".toList) 2000 =
    .ok [ToneEvent.setFreq 523, ToneEvent.delay 437, ToneEvent.setFreq 0, ToneEvent.delay 62] := by decide

example : wholeNoteDuration 120 = 2000 := by decide

example : playNoteParse ("C2/0".toList) =
    .ok { freq100 := 13080, fraction := 0, dotted := false, tied := false } := by decide

example : playNoteParse ("R/4".toList) =
    .ok { freq100 := 0, fraction := 4, dotted := false, tied := false } := by decide

example : playNoteParse ("Cb2/4".toList) = .error "'Cb' is not allowed" := by decide

example : playNoteTrace ("C4/4.".toList) 2000 =
    .ok [ToneEvent.setFreq 523, ToneEvent.delay 656, ToneEvent.setFreq 0, ToneEvent.delay 93] := by decide

example : playNoteTrace ("C4/4_".toList) 2000 =
    .ok [ToneEvent.setFreq 523, ToneEvent.delay 500] := by decide

/-- The seventeen pitch spellings the source accepts (letter plus
optional accidental; `Cb`, `E#`, `B#` and `Fb` are rejected by the
source and are not listed). -/
inductive Pitch where
  | C | Cs | Db | D | Ds | Eb | E | F | Fs | Gb | G | Gs | Ab | A | As | Bb | B
deriving DecidableEq, Fintype, Repr

/-- The characters that spell a pitch in a note token. -/
def Pitch.chars : Pitch → List Char
  | .C  => ['C']
  | .Cs => ['C', '#']
  | .Db => ['D', 'b']
  | .D  => ['D']
  | .Ds => ['D', '#']
  | .Eb => ['E', 'b']
  | .E  => ['E']
  | .F  => ['F']
  | .Fs => ['F', '#']
  | .Gb => ['G', 'b']
  | .G  => ['G']
  | .Gs => ['G', '#']
  | .Ab => ['A', 'b']
  | .A  => ['A']
  | .As => ['A', '#']
  | .Bb => ['B', 'b']
  | .B  => ['B']

/-- The octave-0 base frequency each spelling is assigned by the source's
switch, in hundredths of Hz (`16.35` is `1635`, and so on). -/
def Pitch.base100 : Pitch → Int
  | .C  => 1635
  | .Cs => 1732
  | .Db => 1732
  | .D  => 1835
  | .Ds => 1945
  | .Eb => 1945
  | .E  => 2060
  | .F  => 2183
  | .Fs => 2312
  | .Gb => 2312
  | .G  => 2450
  | .Gs => 2596
  | .Ab => 2596
  | .A  => 2750
  | .As => 2914
  | .Bb => 2914
  | .B  => 3087

/-- A well-formed note token `<pitch><octave>/4` for a pitch spelling and
an octave digit. -/
def mkTok (p : Pitch) (o : Nat) : List Char :=
  p.chars ++ [Char.ofNat (48 + o), '/', '4']

/-- The frequency (hundredths of Hz) a token parses to, when it parses. -/
def parsedFreq100 (note : List Char) : Option Int :=
  match playNoteParse note with
  | .ok nd => some nd.freq100
  | .error _ => none

example : parsedFreq100 (mkTok Pitch.C 4) = some 52320 := by decide
example : parsedFreq100 (mkTok Pitch.Cs 2) = parsedFreq100 (mkTok Pitch.Db 2) := by decide

/-- The iteration of `ev3dev_Speaker_play_notes` over the note tokens,
accumulating the device trace; a failing token aborts with the trace
emitted so far (the failing token emits nothing: `play_note` touches the
device only after all parsing succeeded). -/
def playNotesGo (whole : Int) : List (List Char) → List ToneEvent →
    Except (String × List ToneEvent) (List ToneEvent)
  | [], tr => .ok tr
  | n :: ns, tr =>
    match playNoteTrace n whole with
    | .ok t => playNotesGo whole ns (tr ++ t)
    | .error e => .error (e, tr)

/-- `ev3dev_Speaker_play_notes`: compute the whole-note duration from the
tempo, play each token in order, and in both exits — normal completion
(`in case the last note has '_'`) and the `nlr` handler that catches an
exception (`ensure that sound stops if an exception is raised`) — write
frequency 0 before returning.  Result: the raised message, if any, and
the full device trace. -/
def playNotes (tokens : List (List Char)) (tempo : Int) :
    Option String × List ToneEvent :=
  match playNotesGo (wholeNoteDuration tempo) tokens [] with
  | .ok tr => (none, tr ++ [ToneEvent.setFreq 0])
  | .error (e, tr) => (some e, tr ++ [ToneEvent.setFreq 0])

example : playNotes [("C4/4".toList), ("R/4".toList)] 120 =
    (none, [ToneEvent.setFreq 523, ToneEvent.delay 437, ToneEvent.setFreq 0, ToneEvent.delay 62,
            ToneEvent.setFreq 0, ToneEvent.delay 437, ToneEvent.setFreq 0, ToneEvent.delay 62,
            ToneEvent.setFreq 0]) := by decide

example : playNotes [("C4/4_".toList)] 120 =
    (none, [ToneEvent.setFreq 523, ToneEvent.delay 500, ToneEvent.setFreq 0]) := by decide

example : playNotes [("C4/4".toList), ("X".toList)] 120 =
    (some "Missing note name A-G or R",
     [ToneEvent.setFreq 523, ToneEvent.delay 437, ToneEvent.setFreq 0, ToneEvent.delay 62,
      ToneEvent.setFreq 0]) := by decide

/-- The state `ev3dev_Speaker_make_new` leaves the singleton in: the
descriptor returned by `open` (−1 on failure) and whether the open
failure was logged (`perror`) — which happens exactly once, at
construction, when `open` returned −1. -/
structure SpeakerInit where
  beepFd : Int
  loggedOpenFailure : Bool
deriving DecidableEq, Repr

/-- `ev3dev_Speaker_make_new` with the result of `open` as input. -/
def speakerMakeNew (openFd : Int) : SpeakerInit :=
  { beepFd := openFd, loggedOpenFailure := openFd == -1 }

/-- The return value of `set_beep_frequency`'s `write` loop: writing to
the invalid descriptor −1 fails (−1, `errno = EBADF`); a write to the
device opened at construction is modelled as succeeding (transient
`EINTR` failures are retried inside the loop and not visible). -/
def setBeepWrite (beepFd : Int) : Int :=
  if beepFd = -1 then -1 else 16

/-- An error `ev3dev_Speaker_beep` can propagate: `mp_raise_OSError`
after a failed write, or an exception delivered while suspended in
`mp_hal_delay_ms`. -/
inductive MpErr where
  | osError
  | interrupted
deriving DecidableEq, Repr

/-- `ev3dev_Speaker_beep`: set the frequency (raising `OSError` if the
write fails); return at once if `ms < 0`; otherwise delay `ms` and
silence, and if the delay is interrupted by an exception, silence first
and re-raise.  `delayInterrupted` says whether an exception arrives
during the `mp_hal_delay_ms` suspension.  Result: the device trace and
the error propagated, if any. -/
def speakerBeep (beepFd : Int) (freq ms : Int) (delayInterrupted : Bool) :
    List ToneEvent × Option MpErr :=
  if setBeepWrite beepFd = -1 then ([], some MpErr.osError)
  else if ms < 0 then ([ToneEvent.setFreq freq], none)
  else if delayInterrupted then
    ([ToneEvent.setFreq freq, ToneEvent.setFreq 0], some MpErr.interrupted)
  else
    ([ToneEvent.setFreq freq, ToneEvent.delay ms, ToneEvent.setFreq 0], none)

example : speakerBeep 3 500 (-1) false = ([ToneEvent.setFreq 500], none) := by decide
example : speakerBeep (-1) 500 100 false = ([], some MpErr.osError) := by decide

/-- The completion cells of the speaker singleton used by `say`: the
three busy flags and the results the `aplay`/`espeak` wait callbacks and
the splice callback write (`*_result`, `splice_result`), plus a count of
`g_subprocess_force_exit` calls issued to each process. -/
structure PipeState where
  aplayBusy : Bool
  espeakBusy : Bool
  spliceBusy : Bool
  aplayResult : Bool
  espeakResult : Bool
  spliceResult : Int
  aplayForceExits : Nat
  espeakForceExits : Nat
deriving DecidableEq, Repr

/-- What one pass through the `do { nlr_push; MICROPY_EVENT_POLL_HOOK;
... }` body amounts to: either the GLib main context dispatches some of
the pending completion callbacks (each `some r` delivers that callback
with result `r`, writing the cell and clearing the busy flag), or an
exception (e.g. `KeyboardInterrupt`) is delivered to the `nlr` handler. -/
inductive PollEvent where
  | dispatch (aplay : Option Bool) (espeak : Option Bool) (splice : Option Int)
  | raise (e : Nat)
deriving DecidableEq, Repr

/-- One iteration of `say`'s wait loop: callbacks write their result cell
and clear their busy flag; the exception handler force-exits both
processes and records the (last) exception. -/
def sayStep (s : PipeState) (exc : Option Nat) : PollEvent → PipeState × Option Nat
  | PollEvent.dispatch a e sp =>
    ({ s with
        aplayResult := a.getD s.aplayResult
        aplayBusy := if a.isSome then false else s.aplayBusy
        espeakResult := e.getD s.espeakResult
        espeakBusy := if e.isSome then false else s.espeakBusy
        spliceResult := sp.getD s.spliceResult
        spliceBusy := if sp.isSome then false else s.spliceBusy }, exc)
  | PollEvent.raise n =>
    ({ s with
        espeakForceExits := s.espeakForceExits + 1
        aplayForceExits := s.aplayForceExits + 1 }, some n)

/-- `say`'s `do ... while (espeak_busy || aplay_busy || splice_busy)`
loop over a trace of poll iterations; `none` when event trace runs out
while some completion is still outstanding (the real loop keeps
polling). -/
def sayAwait : PipeState → Option Nat → List PollEvent → Option (PipeState × Option Nat)
  | _, _, [] => none
  | s, exc, ev :: rest =>
    let p := sayStep s exc ev
    if p.1.espeakBusy || p.1.aplayBusy || p.1.spliceBusy then
      sayAwait p.1 p.2 rest
    else
      some p

/-- The singleton's cells right after `say` started its three async
operations: all busy, results not yet written (their previous contents do
not matter: the loop cannot exit before every callback has run). -/
def sayInit : PipeState :=
  { aplayBusy := true, espeakBusy := true, spliceBusy := true,
    aplayResult := false, espeakResult := false, spliceResult := 0,
    aplayForceExits := 0, espeakForceExits := 0 }

/-- `g_input_stream_read_all` of a process's captured stderr into the
4096-byte buffer: `none` when the read itself fails, else the first 4096
bytes of the stream. -/
def drainedStderr (stream : List Char) (readFail : Bool) : Option (List Char) :=
  if readFail then none else some (stream.take 4096)

/-- The `err_msg` selection of `play_file` and `say` on a failed process:
start from the wait error's message, and replace it with the drained
stderr bytes when the read succeeded and read at least one byte. -/
def failureDiagnostic (waitMsg : String) (stream : List Char) (readFail : Bool) : String :=
  match drainedStderr stream readFail with
  | some bytes => if bytes.length ≠ 0 then String.mk bytes else waitMsg
  | none => waitMsg

/-- How a pipeline call ends: normally, re-raising the exception caught
while waiting, or raising the `RuntimeError` built from a failed
process. -/
inductive PipeOutcome where
  | ok
  | interrupted (e : Nat)
  | failure (msg : String)
deriving DecidableEq, Repr

/-- What `say` does after its wait loop, with the released references
recorded: every path unrefs both subprocess objects; an exception caught
during the wait is re-raised without looking at the result cells; then
`aplay`'s result is checked before `espeak`'s, each failure raising
`Saying text failed:` with that process's diagnostic. -/
structure SayFinal where
  outcome : PipeOutcome
  aplayUnreffed : Bool
  espeakUnreffed : Bool
deriving DecidableEq, Repr

def sayFinish (s : PipeState) (exc : Option Nat)
    (aplayWaitMsg espeakWaitMsg : String)
    (aplayStderr espeakStderr : List Char)
    (aplayReadFail espeakReadFail : Bool) : SayFinal :=
  match exc with
  | some n => { outcome := .interrupted n, aplayUnreffed := true, espeakUnreffed := true }
  | none =>
    if s.aplayResult = false then
      { outcome := .failure ("Saying text failed: " ++
          failureDiagnostic aplayWaitMsg aplayStderr aplayReadFail),
        aplayUnreffed := true, espeakUnreffed := true }
    else if s.espeakResult = false then
      { outcome := .failure ("Saying text failed: " ++
          failureDiagnostic espeakWaitMsg espeakStderr espeakReadFail),
        aplayUnreffed := true, espeakUnreffed := true }
    else
      { outcome := .ok, aplayUnreffed := true, espeakUnreffed := true }

/-- The cells `play_file` uses: only the `aplay` callback is pending. -/
structure FileState where
  aplayBusy : Bool
  aplayResult : Bool
  aplayForceExits : Nat
deriving DecidableEq, Repr

/-- One iteration of `play_file`'s wait loop (its exception handler
force-exits only `aplay`); the `espeak`/`splice` components of a
dispatch do not exist in this call and are ignored. -/
def fileStep (s : FileState) (exc : Option Nat) : PollEvent → FileState × Option Nat
  | PollEvent.dispatch a _ _ =>
    ({ s with
        aplayResult := a.getD s.aplayResult
        aplayBusy := if a.isSome then false else s.aplayBusy }, exc)
  | PollEvent.raise n =>
    ({ s with aplayForceExits := s.aplayForceExits + 1 }, some n)

/-- `play_file`'s `do ... while (aplay_busy)` loop. -/
def fileAwait : FileState → Option Nat → List PollEvent → Option (FileState × Option Nat)
  | _, _, [] => none
  | s, exc, ev :: rest =>
    let p := fileStep s exc ev
    if p.1.aplayBusy then fileAwait p.1 p.2 rest else some p

/-- The cells right after `play_file` started `aplay`'s async wait. -/
def fileInit : FileState :=
  { aplayBusy := true, aplayResult := false, aplayForceExits := 0 }

/-- What `play_file` does after its wait loop: unref `aplay` on every
path; re-raise a caught exception without looking at the result; raise
`Playing file failed:` with the diagnostic when `aplay` failed. -/
structure FileFinal where
  outcome : PipeOutcome
  aplayUnreffed : Bool
deriving DecidableEq, Repr

def playFileFinish (s : FileState) (exc : Option Nat)
    (waitMsg : String) (stderrStream : List Char) (readFail : Bool) : FileFinal :=
  match exc with
  | some n => { outcome := .interrupted n, aplayUnreffed := true }
  | none =>
    if s.aplayResult = false then
      { outcome := .failure ("Playing file failed: " ++
          failureDiagnostic waitMsg stderrStream readFail),
        aplayUnreffed := true }
    else
      { outcome := .ok, aplayUnreffed := true }

/-- The measurements the battery driver can report (`voltage()` and
`current()` read them through `pbdrv_battery_get_*_now`). -/
structure BatteryState where
  voltageMv : Nat
  currentMa : Nat
deriving DecidableEq, Repr

/-- `battery_percent` of extmod/modbattery.c: returns the constant 100
(the source marks it TODO) without consulting the battery. -/
def battery_percent (_s : BatteryState) : Int := 100

/-- `battery_low` of extmod/modbattery.c: returns the constant `False`
(the source marks it TODO) without consulting the battery. -/
def battery_low (_s : BatteryState) : Bool := false

/-- `say`'s wait loop only exits once no completion is outstanding. -/
theorem sayAwait_exit_not_busy (evs : List PollEvent) :
    ∀ s exc s' exc', sayAwait s exc evs = some (s', exc') →
      s'.espeakBusy = false ∧ s'.aplayBusy = false ∧ s'.spliceBusy = false := by
  induction evs with
  | nil =>
    intro s exc s' exc' h
    simp [sayAwait] at h
  | cons ev rest ih =>
    intro s exc s' exc' h
    rw [sayAwait] at h
    by_cases hb : ((sayStep s exc ev).1.espeakBusy || (sayStep s exc ev).1.aplayBusy
        || (sayStep s exc ev).1.spliceBusy) = true
    · rw [if_pos hb] at h
      exact ih _ _ _ _ h
    · rw [if_neg hb] at h
      simp only [Bool.or_eq_true, not_or, Bool.not_eq_true] at hb
      rw [Option.some.injEq] at h
      have h1 : (sayStep s exc ev).1 = s' := congrArg Prod.fst h
      exact h1 ▸ ⟨hb.1.1, hb.1.2, hb.2⟩

/-- The invariant of `say`'s wait loop: once an exception was caught,
both processes have received a `g_subprocess_force_exit`. -/
def sayExcInv (s : PipeState) (exc : Option Nat) : Prop :=
  exc ≠ none → 1 ≤ s.aplayForceExits ∧ 1 ≤ s.espeakForceExits

theorem sayStep_inv (s : PipeState) (exc : Option Nat) (ev : PollEvent)
    (h : sayExcInv s exc) : sayExcInv (sayStep s exc ev).1 (sayStep s exc ev).2 := by
  cases ev with
  | dispatch a e sp => exact h
  | raise n =>
    intro _
    exact ⟨Nat.le_add_left 1 s.aplayForceExits, Nat.le_add_left 1 s.espeakForceExits⟩

theorem sayAwait_inv (evs : List PollEvent) :
    ∀ s exc s' exc', sayAwait s exc evs = some (s', exc') →
      sayExcInv s exc → sayExcInv s' exc' := by
  induction evs with
  | nil =>
    intro s exc s' exc' h
    simp [sayAwait] at h
  | cons ev rest ih =>
    intro s exc s' exc' h hinv
    rw [sayAwait] at h
    by_cases hb : ((sayStep s exc ev).1.espeakBusy || (sayStep s exc ev).1.aplayBusy
        || (sayStep s exc ev).1.spliceBusy) = true
    · rw [if_pos hb] at h
      exact ih _ _ _ _ h (sayStep_inv s exc ev hinv)
    · rw [if_neg hb] at h
      rw [Option.some.injEq] at h
      have h1 : (sayStep s exc ev).1 = s' := congrArg Prod.fst h
      have h2 : (sayStep s exc ev).2 = exc' := congrArg Prod.snd h
      exact h1 ▸ h2 ▸ sayStep_inv s exc ev hinv

/-- `play_file`'s wait loop only exits once `aplay`'s wait completed. -/
theorem fileAwait_exit_not_busy (evs : List PollEvent) :
    ∀ s exc s' exc', fileAwait s exc evs = some (s', exc') →
      s'.aplayBusy = false := by
  induction evs with
  | nil =>
    intro s exc s' exc' h
    simp [fileAwait] at h
  | cons ev rest ih =>
    intro s exc s' exc' h
    rw [fileAwait] at h
    by_cases hb : (fileStep s exc ev).1.aplayBusy = true
    · rw [if_pos hb] at h
      exact ih _ _ _ _ h
    · rw [if_neg hb] at h
      rw [Option.some.injEq] at h
      have h1 : (fileStep s exc ev).1 = s' := congrArg Prod.fst h
      rw [← h1]
      exact Bool.not_eq_true _ ▸ hb

/-- The invariant of `play_file`'s wait loop: once an exception was
caught, `aplay` has received a `g_subprocess_force_exit`. -/
def fileExcInv (s : FileState) (exc : Option Nat) : Prop :=
  exc ≠ none → 1 ≤ s.aplayForceExits

theorem fileStep_inv (s : FileState) (exc : Option Nat) (ev : PollEvent)
    (h : fileExcInv s exc) : fileExcInv (fileStep s exc ev).1 (fileStep s exc ev).2 := by
  cases ev with
  | dispatch a e sp => exact h
  | raise n =>
    intro _
    exact Nat.le_add_left 1 s.aplayForceExits

theorem fileAwait_inv (evs : List PollEvent) :
    ∀ s exc s' exc', fileAwait s exc evs = some (s', exc') →
      fileExcInv s exc → fileExcInv s' exc' := by
  induction evs with
  | nil =>
    intro s exc s' exc' h
    simp [fileAwait] at h
  | cons ev rest ih =>
    intro s exc s' exc' h hinv
    rw [fileAwait] at h
    by_cases hb : (fileStep s exc ev).1.aplayBusy = true
    · rw [if_pos hb] at h
      exact ih _ _ _ _ h (fileStep_inv s exc ev hinv)
    · rw [if_neg hb] at h
      rw [Option.some.injEq] at h
      have h1 : (fileStep s exc ev).1 = s' := congrArg Prod.fst h
      have h2 : (fileStep s exc ev).2 = exc' := congrArg Prod.snd h
      exact h1 ▸ h2 ▸ fileStep_inv s exc ev hinv

/-- C1 counterexample: at `tempo = 120` the whole note is 2000 ms, but the
token `"C4/4"` is a quarter note — `duration /= fraction` runs before the
7/8–1/8 split — so the tone sounds for `7*500/8 = 437` ms, not 1750 ms. -/
theorem c1_counterexample :
    wholeNoteDuration 120 = 2000 ∧
    playNoteTrace ("C4/4".toList) (wholeNoteDuration 120) =
      .ok [ToneEvent.setFreq 523, ToneEvent.delay 437,
           ToneEvent.setFreq 0, ToneEvent.delay 62] ∧
    (437 : Int) ≠ 1750 ∧ (62 : Int) ≠ 250 := by decide

/-- C1 (amended): with `tempo_bpm = 120` the whole-note duration is
`4*60000/120 = 2000` ms exactly under integer division, and playing the
single non-tied token `"C4/4"` divides that by the fraction 4 first, then
sounds the tone for `7*500/8 = 437` ms and silences it for `500/8 = 62`
ms (the 7/8 and 1/8 split of the quarter-note duration 500 ms). -/
theorem c1_amended :
    wholeNoteDuration 120 = 2000 ∧
    playNoteTrace ("C4/4".toList) (wholeNoteDuration 120) =
      .ok [ToneEvent.setFreq 523, ToneEvent.delay (Int.tdiv (7 * 500) 8),
           ToneEvent.setFreq 0, ToneEvent.delay (Int.tdiv 500 8)] := by decide

/-- C2 counterexample: the source multiplies the base frequency by
`2 << octave = 2^(octave+1)`, not `2^octave`: `"C2/4"` parses to
`16.35 * 2^3 = 130.80` Hz (13080 hundredths), not `16.35 * 2^2`. -/
theorem c2_counterexample :
    parsedFreq100 (mkTok Pitch.C 2) = some 13080 ∧
    13080 ≠ Pitch.base100 Pitch.C * 2 ^ 2 := by decide

/-- C2 (amended): for every valid non-rest token with octave `o` in
[2,8], the parsed frequency equals the letter+accidental's fixed octave-0
base frequency times `2^(o+1)` (the source's `freq *= 2 << octave`), and
enharmonic spellings at the same octave and fraction yield identical
frequencies. -/
theorem c2_amended (o : Nat) (h2 : 2 ≤ o) (h8 : o ≤ 8) :
    (∀ p : Pitch, parsedFreq100 (mkTok p o) = some (p.base100 * 2 ^ (o + 1))) ∧
    parsedFreq100 (mkTok Pitch.Cs o) = parsedFreq100 (mkTok Pitch.Db o) ∧
    parsedFreq100 (mkTok Pitch.Ds o) = parsedFreq100 (mkTok Pitch.Eb o) ∧
    parsedFreq100 (mkTok Pitch.Fs o) = parsedFreq100 (mkTok Pitch.Gb o) ∧
    parsedFreq100 (mkTok Pitch.Gs o) = parsedFreq100 (mkTok Pitch.Ab o) ∧
    parsedFreq100 (mkTok Pitch.As o) = parsedFreq100 (mkTok Pitch.Bb o) := by
  interval_cases o <;> exact ⟨by decide, by decide, by decide, by decide, by decide, by decide⟩

/-- C2 witness: the amended statement at octave 4 for C. -/
theorem c2_witness :
    parsedFreq100 (mkTok Pitch.C 4) = some (Pitch.base100 Pitch.C * 2 ^ (4 + 1)) :=
  (c2_amended 4 (by decide) (by decide)).1 Pitch.C

/-- C3: evaluation at the failing input `"C2/0"`.  The guard is
`fraction < 0 || fraction > 9`, so the first fraction digit `0` is
accepted and parsing succeeds with `fraction = 0`; the C code then
executes `duration /= fraction` — a division by zero (undefined
behavior) — instead of raising the `NoteSyntaxError` its own message
(`Missing fractional value 1, 2, 4, 8, etc.`) promises. -/
theorem c3_fraction_zero_reaches_division :
    playNoteParse ("C2/0".toList) =
      .ok { freq100 := 13080, fraction := 0, dotted := false, tied := false } := by decide

/-- C4 counterexample: when the tone device failed to open
(`beep_fd = -1`), a `beep` call is not a silent no-op — the failed write
makes it raise `OSError` (`if (ret == -1) mp_raise_OSError(errno)`). -/
theorem c4_counterexample :
    speakerBeep (-1) 500 100 false = ([], some MpErr.osError) ∧
    some MpErr.osError ≠ (none : Option MpErr) := by decide

/-- C4 (amended): if the tone device failed to open at construction, the
failure is logged (`perror`) once, at construction; but every subsequent
`beep` call attempts the write, which fails, and raises `OSError` — it
does not degrade to a silent no-op. -/
theorem c4_amended :
    (speakerMakeNew (-1)).loggedOpenFailure = true ∧
    ∀ (freq ms : Int) (i : Bool), speakerBeep (-1) freq ms i = ([], some MpErr.osError) := by
  refine ⟨rfl, fun freq ms i => ?_⟩
  simp [speakerBeep, setBeepWrite]

/-- C5: if an exception arrives while `play_file` or `say` is awaiting
its asynchronous completions, the handler force-exits every helper
process, the loop keeps running until no completion is outstanding, and
after the loop the exception is re-raised with both subprocess objects
unreffed, ignoring the result cells (so an independently recorded
playback failure is discarded). -/
theorem c5_interrupt_drains_terminates_releases :
    (∀ (evs : List PollEvent) (s : PipeState) (n : Nat) (wA wE : String)
       (eA eE : List Char) (rA rE : Bool),
       sayAwait sayInit none evs = some (s, some n) →
         s.espeakBusy = false ∧ s.aplayBusy = false ∧ s.spliceBusy = false ∧
         1 ≤ s.aplayForceExits ∧ 1 ≤ s.espeakForceExits ∧
         sayFinish s (some n) wA wE eA eE rA rE =
           { outcome := PipeOutcome.interrupted n,
             aplayUnreffed := true, espeakUnreffed := true }) ∧
    (∀ (evs : List PollEvent) (s : FileState) (n : Nat) (w : String)
       (e : List Char) (r : Bool),
       fileAwait fileInit none evs = some (s, some n) →
         s.aplayBusy = false ∧ 1 ≤ s.aplayForceExits ∧
         playFileFinish s (some n) w e r =
           { outcome := PipeOutcome.interrupted n, aplayUnreffed := true }) := by
  constructor
  · intro evs s n wA wE eA eE rA rE h
    obtain ⟨hb1, hb2, hb3⟩ := sayAwait_exit_not_busy evs sayInit none s (some n) h
    have hinv := sayAwait_inv evs sayInit none s (some n) h (fun hc => absurd rfl hc)
    obtain ⟨hf1, hf2⟩ := hinv (Option.some_ne_none n)
    exact ⟨hb1, hb2, hb3, hf1, hf2, rfl⟩
  · intro evs s n w e r h
    have hb := fileAwait_exit_not_busy evs fileInit none s (some n) h
    have hinv := fileAwait_inv evs fileInit none s (some n) h (fun hc => absurd rfl hc)
    exact ⟨hb, hinv (Option.some_ne_none n), rfl⟩

/-- C5 witness: a trace in which the interruption arrives while all
completions are outstanding, then every callback is dispatched — with
`aplay` reporting failure, which the interrupted exit discards. -/
theorem c5_witness :
    ((⟨false, false, false, false, false, 0, 1, 1⟩ : PipeState).espeakBusy = false ∧
     (⟨false, false, false, false, false, 0, 1, 1⟩ : PipeState).aplayBusy = false ∧
     (⟨false, false, false, false, false, 0, 1, 1⟩ : PipeState).spliceBusy = false ∧
     1 ≤ (⟨false, false, false, false, false, 0, 1, 1⟩ : PipeState).aplayForceExits ∧
     1 ≤ (⟨false, false, false, false, false, 0, 1, 1⟩ : PipeState).espeakForceExits ∧
     sayFinish ⟨false, false, false, false, false, 0, 1, 1⟩ (some 5) "w" "w" [] [] false false =
       { outcome := PipeOutcome.interrupted 5,
         aplayUnreffed := true, espeakUnreffed := true }) ∧
    ((⟨false, false, 1⟩ : FileState).aplayBusy = false ∧
     1 ≤ (⟨false, false, 1⟩ : FileState).aplayForceExits ∧
     playFileFinish ⟨false, false, 1⟩ (some 7) "w" [] false =
       { outcome := PipeOutcome.interrupted 7, aplayUnreffed := true }) :=
  ⟨c5_interrupt_drains_terminates_releases.1
      [PollEvent.raise 5, PollEvent.dispatch (some false) (some false) (some 0)]
      ⟨false, false, false, false, false, 0, 1, 1⟩ 5 "w" "w" [] [] false false (by decide),
   c5_interrupt_drains_terminates_releases.2
      [PollEvent.raise 7, PollEvent.dispatch (some false) none none]
      ⟨false, false, 1⟩ 7 "w" [] false (by decide)⟩

/-- C6: `play_notes` always leaves the tone silenced: whatever the token
list and tempo — normal completion, a trailing tied note, or a
mid-sequence failure — the device trace ends with a write of frequency
0 before control leaves the function. -/
theorem c6_melody_always_silenced (tokens : List (List Char)) (tempo : Int) :
    ∃ tr, (playNotes tokens tempo).2 = tr ++ [ToneEvent.setFreq 0] := by
  cases h : playNotesGo (wholeNoteDuration tempo) tokens [] with
  | ok tr => exact ⟨tr, by simp [playNotes, h]⟩
  | error p =>
    obtain ⟨e, tr⟩ := p
    exact ⟨tr, by simp [playNotes, h]⟩

/-- C7: when `aplay` exits reporting failure in `play_file`, the raised
diagnostic is the captured stderr (a bounded read of up to 4096 bytes)
when that capture is non-empty, and the generic wait-error message when
the capture is empty or the read failed. -/
theorem c7_play_file_failure_diagnostic (w : String) (stream : List Char)
    (s : FileState) (hres : s.aplayResult = false) :
    (stream ≠ [] → (playFileFinish s none w stream false).outcome =
        PipeOutcome.failure ("Playing file failed: " ++ String.mk (stream.take 4096))) ∧
    (stream = [] → (playFileFinish s none w stream false).outcome =
        PipeOutcome.failure ("Playing file failed: " ++ w)) ∧
    (playFileFinish s none w stream true).outcome =
        PipeOutcome.failure ("Playing file failed: " ++ w) := by
  refine ⟨fun hne => ?_, fun he => ?_, ?_⟩
  · have hlen : (stream.take 4096).length ≠ 0 := by
      have : 0 < stream.length := List.length_pos.mpr hne
      simp only [List.length_take]
      omega
    simp [playFileFinish, hres, failureDiagnostic, drainedStderr, hlen, hne]
  · subst he
    simp [playFileFinish, hres, failureDiagnostic, drainedStderr]
  · simp [playFileFinish, hres, failureDiagnostic, drainedStderr]

/-- C7 witness: a one-byte capture is surfaced verbatim; with the read
failing, the wait error's message is surfaced. -/
theorem c7_witness :
    (playFileFinish fileInit none "werr" ['A'] false).outcome =
        PipeOutcome.failure ("Playing file failed: " ++ String.mk (['A'].take 4096)) ∧
    (playFileFinish fileInit none "werr" ['A'] true).outcome =
        PipeOutcome.failure ("Playing file failed: " ++ "werr") :=
  ⟨(c7_play_file_failure_diagnostic "werr" ['A'] fileInit rfl).1 (by decide),
   (c7_play_file_failure_diagnostic "werr" ['A'] fileInit rfl).2.2⟩

/-- C8: on `say`'s non-cancelled path, `aplay`'s (playback) outcome is
checked before `espeak`'s (synthesis): a playback failure is surfaced no
matter what the synthesis result cell holds — so when both fail only the
playback diagnostic reaches the caller — and the synthesis failure is
surfaced only when playback succeeded. -/
theorem c8_playback_checked_before_synthesis (s : PipeState) (wA wE : String)
    (eA eE : List Char) (rA rE : Bool) :
    (s.aplayResult = false →
       (sayFinish s none wA wE eA eE rA rE).outcome =
         PipeOutcome.failure ("Saying text failed: " ++ failureDiagnostic wA eA rA)) ∧
    (s.aplayResult = true → s.espeakResult = false →
       (sayFinish s none wA wE eA eE rA rE).outcome =
         PipeOutcome.failure ("Saying text failed: " ++ failureDiagnostic wE eE rE)) := by
  refine ⟨fun h => ?_, fun h1 h2 => ?_⟩
  · simp [sayFinish, h]
  · simp [sayFinish, h1, h2]

/-- C8 witness: a state where both processes failed surfaces the playback
(`aplay`) diagnostic; one where only synthesis failed surfaces the
synthesis diagnostic. -/
theorem c8_witness :
    (sayFinish ⟨false, false, false, false, false, 0, 0, 0⟩ none "wa" "we" ['a'] ['e'] false false).outcome =
      PipeOutcome.failure ("Saying text failed: " ++ failureDiagnostic "wa" ['a'] false) ∧
    (sayFinish ⟨false, false, false, true, false, 0, 0, 0⟩ none "wa" "we" ['a'] ['e'] false false).outcome =
      PipeOutcome.failure ("Saying text failed: " ++ failureDiagnostic "we" ['e'] false) :=
  ⟨(c8_playback_checked_before_synthesis ⟨false, false, false, false, false, 0, 0, 0⟩
      "wa" "we" ['a'] ['e'] false false).1 rfl,
   (c8_playback_checked_before_synthesis ⟨false, false, false, true, false, 0, 0, 0⟩
      "wa" "we" ['a'] ['e'] false false).2 rfl rfl⟩

/-- C9: `beep` commands the tone on at the given frequency; with a
negative duration it returns at once leaving the tone sounding; with a
non-negative duration it delays for `ms` and silences, and if the delay
is interrupted it silences before re-raising. -/
theorem c9_beep_duration_semantics (freq ms : Int) (intr : Bool) (fd : Int)
    (hfd : fd ≠ -1) :
    (ms < 0 → speakerBeep fd freq ms intr = ([ToneEvent.setFreq freq], none)) ∧
    (0 ≤ ms → intr = false →
       speakerBeep fd freq ms intr =
         ([ToneEvent.setFreq freq, ToneEvent.delay ms, ToneEvent.setFreq 0], none)) ∧
    (0 ≤ ms → intr = true →
       speakerBeep fd freq ms intr =
         ([ToneEvent.setFreq freq, ToneEvent.setFreq 0], some MpErr.interrupted)) := by
  have hw : ¬ setBeepWrite fd = -1 := by simp [setBeepWrite, hfd]
  refine ⟨fun h => ?_, fun h hi => ?_, fun h hi => ?_⟩
  · simp [speakerBeep, hw, h]
  · simp [speakerBeep, hw, Int.not_lt.mpr h, hi]
  · simp [speakerBeep, hw, Int.not_lt.mpr h, hi]

/-- C9 witness: `Beep(500, -1)` leaves the tone sounding at 500 Hz;
`Beep(500, 100)` sounds, waits 100 ms and silences; an interrupted
`Beep(500, 100)` silences before re-raising. -/
theorem c9_witness :
    speakerBeep 3 500 (-1) false = ([ToneEvent.setFreq 500], none) ∧
    speakerBeep 3 500 100 false =
      ([ToneEvent.setFreq 500, ToneEvent.delay 100, ToneEvent.setFreq 0], none) ∧
    speakerBeep 3 500 100 true =
      ([ToneEvent.setFreq 500, ToneEvent.setFreq 0], some MpErr.interrupted) :=
  ⟨(c9_beep_duration_semantics 500 (-1) false 3 (by decide)).1 (by decide),
   (c9_beep_duration_semantics 500 100 false 3 (by decide)).2.1 (by decide) rfl,
   (c9_beep_duration_semantics 500 100 true 3 (by decide)).2.2 (by decide) rfl⟩

/-- C10: `battery.percent()` returns exactly 100 and `battery.low()`
returns `False`, whatever the measured battery state — both are
hard-coded constants independent of voltage and current. -/
theorem c10_battery_constants (s t : BatteryState) :
    battery_percent s = 100 ∧ battery_low s = false ∧
    battery_percent s = battery_percent t ∧ battery_low s = battery_low t :=
  ⟨rfl, rfl, rfl, rfl⟩
